import Mathlib

/-!
Verification of the wind-adjusted fire-spread and population-impact engine of
the Business_Analytics_Wildfire repository.

The numeric frontend code (RealFireMap.tsx, api.ts, storage.ts) is embedded
over `ℚ` where the arithmetic is exact and over `ℝ` where trigonometry is
involved, idealising JavaScript IEEE-754 numbers as exact rationals/reals.
The backend impact aggregator (the `county_map_with_wind` module) is not part
of the available sources; it is modelled from the specification where claims
require it, as marked in the doc comments.
-/

namespace Wildfire

/-- JavaScript `Math.round`: rounds half-way cases toward positive infinity.
This is also the fixed round-half-up rule the specification prescribes for
`contributing_population` (spec section 4.3, step 3). -/
def jsRound (q : ℚ) : ℤ := ⌊q + 1 / 2⌋

/-- `getElongationFactor` from RealFireMap.tsx lines 49-54: the stretch factor
applied to the downwind axis, a step function of the wind speed. -/
def getElongationFactor (windSpeed : ℚ) : ℚ :=
  if windSpeed ≤ 5 then 1.2
  else if windSpeed ≤ 15 then 1.8
  else if windSpeed ≤ 25 then 2.5
  else 3.5

/-- The scalar geometry data assembled by `updateFireLayers`
(RealFireMap.tsx lines 159-176) before it is handed to
`createEllipseCoordinates`: the ellipse center and axes plus the rotation
angle. -/
structure FireGeom where
  centerLng : ℚ
  centerLat : ℚ
  majorAxis : ℚ
  minorAxis : ℚ
  rotationAngle : ℚ
  deriving DecidableEq

/-- The scalar part of `updateFireLayers` (RealFireMap.tsx lines 159-176):
`currentRadius = radiusMeters * (animationProgress / 100)`,
`majorAxis = currentRadius * elongation`, `minorAxis = currentRadius`,
`rotationAngle = windDirection`, and the ellipse is centered at the literal
`(longitude, latitude)` origin.  `radiusMeters` is `acresToRadius(predictedAcres)`
and `elongation` is `getElongationFactor windSpeed` at the call site. -/
def updateFireLayersGeom (longitude latitude radiusMeters windSpeed windDirection
    animationProgress : ℚ) : FireGeom :=
  let currentRadius := radiusMeters * (animationProgress / 100)
  { centerLng := longitude
    centerLat := latitude
    majorAxis := currentRadius * getElongationFactor windSpeed
    minorAxis := currentRadius
    rotationAngle := windDirection }

def labelN : String := "N"
def labelNE : String := "NE"
def labelE : String := "E"
def labelSE : String := "SE"
def labelS : String := "S"
def labelSW : String := "SW"
def labelW : String := "W"
def labelNW : String := "NW"

/-- The compass-label table of `getWindLabel` (RealFireMap.tsx line 323). -/
def windDirections : List String :=
  [ labelN, labelNE, labelE, labelSE, labelS, labelSW, labelW, labelNW ]

/-- `getWindLabel` from RealFireMap.tsx lines 322-326:
`directions[Math.round(direction / 45) % 8]`.  JavaScript `%` is the
truncating remainder, modelled by `Int.tmod`; an out-of-range index yields
`undefined`, modelled by `none`. -/
def getWindLabel (direction : ℚ) : Option String :=
  windDirections[((jsRound (direction / 45)).tmod 8).toNat]?

/-- The bearing displayed by the map legend (RealFireMap.tsx line 400):
the legend shows the wind as blowing *from*
`getWindLabel((windDirection + 180) % 360)`.  The form slider supplies an
integer direction in `[0, 359]`, so the JavaScript `%` agrees with `Int.tmod`
here. -/
def legendFromBearing (windDirection : ℤ) : ℤ := (windDirection + 180).tmod 360

theorem getElongationFactor_mono {w₁ w₂ : ℚ} (h : w₁ ≤ w₂) :
    getElongationFactor w₁ ≤ getElongationFactor w₂ := by
  unfold getElongationFactor
  split_ifs <;> linarith

theorem one_lt_getElongationFactor (w : ℚ) : 1 < getElongationFactor w := by
  unfold getElongationFactor
  split_ifs <;> norm_num

/-- **C1** (counterexample).  The claim says the rotation bearing of the
footprint equals `(wind_direction + 180) mod 360`, hence `65` when
`wind_direction = 245`.  The code (RealFireMap.tsx line 167) passes
`windDirection` itself as the rotation angle, so at `wind_direction = 245`
the rotation angle is `245`, not `65`. -/
theorem C1_rotation_counterexample :
    (updateFireLayersGeom (-119.4179) 36.7783 5000 30 245 100).rotationAngle ≠ 65 := by
  show (245 : ℚ) ≠ 65
  norm_num

/-- **C1** (amended).  The rotation angle the component passes to the ellipse
builder equals `wind_direction` itself — the code treats `wind_direction` as
the bearing the fire spreads TO — and only the map legend applies the
reciprocal-bearing conversion: it displays the wind as blowing *from*
`(wind_direction + 180) mod 360`, which for `wind_direction = 245` is bearing
`65`, labelled with the second compass entry (the ENE-adjacent label). -/
theorem C1_rotation_amended :
    (∀ lng lat r ws wd p, (updateFireLayersGeom lng lat r ws wd p).rotationAngle = wd)
    ∧ legendFromBearing 245 = 65
    ∧ getWindLabel 65 = windDirections[1]? := by
  refine ⟨fun _ _ _ _ _ _ => rfl, by decide, ?_⟩
  have h1 : jsRound ((65 : ℚ) / 45) = 1 := by
    unfold jsRound
    rw [Int.floor_eq_iff]
    constructor <;> norm_num
  unfold getWindLabel
  rw [h1]
  rfl

/-- **C2** (counterexample).  The claim says the stretch factor equals
`1 + clamp(wind_speed, 0, W_max) / 100` for some configured ceiling `W_max`.
No ceiling makes that formula match the code: at `wind_speed = 0` the formula
yields at most `1`, while `getElongationFactor 0 = 1.2`. -/
theorem C2_stretch_counterexample :
    ¬ ∃ Wmax : ℚ, ∀ w : ℚ, 0 ≤ w →
      getElongationFactor w = 1 + min (max w 0) Wmax / 100 := by
  rintro ⟨Wmax, h⟩
  have h0 := h 0 le_rfl
  have hval : getElongationFactor 0 = 1.2 := by norm_num [getElongationFactor]
  have hle : min (max (0 : ℚ) 0) Wmax ≤ 0 := by
    simp only [max_self]
    exact min_le_left (0 : ℚ) Wmax
  rw [hval] at h0
  linarith

/-- **C2** (amended).  The stretch factor is the step function
`getElongationFactor`: `1.2` for `wind_speed ≤ 5`, `1.8` for
`5 < wind_speed ≤ 15`, `2.5` for `15 < wind_speed ≤ 25`, and `3.5` above;
the minor axis equals the animated radius `radiusMeters * (progress / 100)`
derived from the predicted acreage (not `base_radius_km * 1000`), and the
major axis equals the minor axis times the stretch factor. -/
theorem C2_stretch_amended :
    ∀ lng lat r ws wd p,
      (updateFireLayersGeom lng lat r ws wd p).majorAxis
        = (updateFireLayersGeom lng lat r ws wd p).minorAxis * getElongationFactor ws
      ∧ (updateFireLayersGeom lng lat r ws wd p).minorAxis = r * (p / 100)
      ∧ (ws ≤ 5 → getElongationFactor ws = 1.2)
      ∧ (5 < ws → ws ≤ 15 → getElongationFactor ws = 1.8)
      ∧ (15 < ws → ws ≤ 25 → getElongationFactor ws = 2.5)
      ∧ (25 < ws → getElongationFactor ws = 3.5) := by
  intro lng lat r ws wd p
  refine ⟨rfl, rfl, ?_, ?_, ?_, ?_⟩
  · intro h
    unfold getElongationFactor
    rw [if_pos h]
  · intro h₁ h₂
    unfold getElongationFactor
    rw [if_neg (not_le.mpr h₁), if_pos h₂]
  · intro h₁ h₂
    unfold getElongationFactor
    rw [if_neg (by linarith : ¬ ws ≤ 5), if_neg (not_le.mpr h₁), if_pos h₂]
  · intro h
    unfold getElongationFactor
    rw [if_neg (by linarith : ¬ ws ≤ 5), if_neg (by linarith : ¬ ws ≤ 15),
      if_neg (not_le.mpr h)]

/-- Witness for C2: at `wind_speed = 20` the stretch factor evaluates to `2.5`. -/
theorem C2_stretch_witness : getElongationFactor 20 = 2.5 :=
  (C2_stretch_amended 0 0 2523 20 245 100).2.2.2.2.1 (by norm_num) (by norm_num)

/-- **C3** (counterexample).  At `wind_speed = 0` the claim requires
`major_axis = minor_axis` (a circle).  The code gives stretch factor `1.2` at
zero wind, so with radius `5000` and full animation progress the major axis is
`6000` while the minor axis is `5000`. -/
theorem C3_zero_wind_counterexample :
    (updateFireLayersGeom (-119.4179) 36.7783 5000 0 245 100).majorAxis
      ≠ (updateFireLayersGeom (-119.4179) 36.7783 5000 0 245 100).minorAxis := by
  show (5000 : ℚ) * (100 / 100) * getElongationFactor 0 ≠ (5000 : ℚ) * (100 / 100)
  norm_num [getElongationFactor]

/-- **C3** (amended).  At `wind_speed = 0` the stretch factor is `1.2`, so the
footprint is a strict ellipse (`major_axis = 1.2 * minor_axis`, different from
the minor axis whenever the radius and progress are positive); the ellipse
center coincides with the literal origin for all inputs, so no origin shift is
ever applied. -/
theorem C3_zero_wind_amended :
    ∀ lng lat r wd p,
      (updateFireLayersGeom lng lat r 0 wd p).majorAxis
        = 1.2 * (updateFireLayersGeom lng lat r 0 wd p).minorAxis
      ∧ (updateFireLayersGeom lng lat r 0 wd p).centerLng = lng
      ∧ (updateFireLayersGeom lng lat r 0 wd p).centerLat = lat
      ∧ (0 < r → 0 < p →
          (updateFireLayersGeom lng lat r 0 wd p).majorAxis
            ≠ (updateFireLayersGeom lng lat r 0 wd p).minorAxis) := by
  intro lng lat r wd p
  have hE : getElongationFactor 0 = 1.2 := by norm_num [getElongationFactor]
  refine ⟨?_, rfl, rfl, ?_⟩
  · show r * (p / 100) * getElongationFactor 0 = 1.2 * (r * (p / 100))
    rw [hE]; ring
  · intro hr hp heq
    have heq2 : r * (p / 100) * getElongationFactor 0 = r * (p / 100) := heq
    rw [hE] at heq2
    have hpos : 0 < r * (p / 100) := by positivity
    nlinarith

/-- Witness for C3: with radius `5000` and progress `100`, the zero-wind
footprint is not a circle. -/
theorem C3_zero_wind_witness :
    (0 : ℚ) < 5000 ∧ (0 : ℚ) < 100 ∧
      (updateFireLayersGeom (-119.4179) 36.7783 5000 0 180 100).majorAxis
        ≠ (updateFireLayersGeom (-119.4179) 36.7783 5000 0 180 100).minorAxis :=
  ⟨by norm_num, by norm_num,
    (C3_zero_wind_amended (-119.4179) 36.7783 5000 180 100).2.2.2
      (by norm_num) (by norm_num)⟩

/-- **C4** (confirmed).  For a fixed (nonnegative) radius, animation progress
and wind direction, the major axis is monotone non-decreasing in the wind
speed: the step function `getElongationFactor` is monotone and the major axis
is the nonnegative current radius times it. -/
theorem C4_major_axis_monotone :
    ∀ lng lat r ws₁ ws₂ wd p, 0 ≤ r → 0 ≤ p → ws₁ ≤ ws₂ →
      (updateFireLayersGeom lng lat r ws₁ wd p).majorAxis
        ≤ (updateFireLayersGeom lng lat r ws₂ wd p).majorAxis := by
  intro lng lat r ws₁ ws₂ wd p hr hp h
  have hcr : 0 ≤ r * (p / 100) := by positivity
  show r * (p / 100) * getElongationFactor ws₁ ≤ r * (p / 100) * getElongationFactor ws₂
  exact mul_le_mul_of_nonneg_left (getElongationFactor_mono h) hcr

/-- Witness for C4: raising the wind speed from `0` to `30` mph does not
decrease the major axis. -/
theorem C4_major_axis_monotone_witness :
    (0 : ℚ) ≤ 2523 ∧ (0 : ℚ) ≤ 100 ∧ (0 : ℚ) ≤ 30 ∧
      (updateFireLayersGeom (-119.4179) 36.7783 2523 0 245 100).majorAxis
        ≤ (updateFireLayersGeom (-119.4179) 36.7783 2523 30 245 100).majorAxis :=
  ⟨by norm_num, by norm_num, by norm_num,
    C4_major_axis_monotone (-119.4179) 36.7783 2523 0 30 245 100
      (by norm_num) (by norm_num) (by norm_num)⟩

/-- The loop body of `createEllipseCoordinates` (RealFireMap.tsx lines 85-101)
as a function of the loop index `i`: the `i`-th sampled point of the rotated
ellipse, with the meter offsets converted to approximate degrees. -/
noncomputable def ellipsePoint (centerLng centerLat majorAxisMeters minorAxisMeters
    rotationDegrees : ℝ) (numPoints i : ℕ) : ℝ × ℝ :=
  let rotationRad := rotationDegrees * Real.pi / 180
  let angle := ((i : ℝ) / (numPoints : ℝ)) * (2 * Real.pi)
  let x := majorAxisMeters * Real.cos angle
  let y := minorAxisMeters * Real.sin angle
  let rotatedX := x * Real.cos rotationRad - y * Real.sin rotationRad
  let rotatedY := x * Real.sin rotationRad + y * Real.cos rotationRad
  let latOffset := rotatedY / 111320
  let lngOffset := rotatedX / (111320 * Real.cos (centerLat * Real.pi / 180))
  (centerLng + lngOffset, centerLat + latOffset)

/-- `createEllipseCoordinates` from RealFireMap.tsx lines 74-104: the loop
`for i in 0..numPoints` pushes one sampled point per index, so the result is
the image of `0, 1, ..., numPoints` under `ellipsePoint`.  The source declares
`numPoints` with default value `64`, which every call site uses. -/
noncomputable def createEllipseCoordinates (centerLng centerLat majorAxisMeters
    minorAxisMeters rotationDegrees : ℝ) (numPoints : ℕ) : List (ℝ × ℝ) :=
  (List.range (numPoints + 1)).map
    (ellipsePoint centerLng centerLat majorAxisMeters minorAxisMeters rotationDegrees numPoints)

/-- The main fire-spread polygon built by `updateFireLayers`
(RealFireMap.tsx lines 170-176): `createEllipseCoordinates` applied to the
scalar geometry of `updateFireLayersGeom` with the default 64 sample steps. -/
noncomputable def updateFireLayersEllipse (longitude latitude radiusMeters windSpeed
    windDirection animationProgress : ℚ) : List (ℝ × ℝ) :=
  let g := updateFireLayersGeom longitude latitude radiusMeters windSpeed windDirection
    animationProgress
  createEllipseCoordinates (g.centerLng : ℝ) (g.centerLat : ℝ) (g.majorAxis : ℝ)
    (g.minorAxis : ℝ) (g.rotationAngle : ℝ) 64

/-- Sample points half a revolution apart are reflections of each other
through the ellipse center. -/
theorem ellipsePoint_antipode (c₁ c₂ a b rot : ℝ) (i : ℕ) :
    (ellipsePoint c₁ c₂ a b rot 64 i).1 + (ellipsePoint c₁ c₂ a b rot 64 (i + 32)).1 = 2 * c₁
    ∧ (ellipsePoint c₁ c₂ a b rot 64 i).2 + (ellipsePoint c₁ c₂ a b rot 64 (i + 32)).2
        = 2 * c₂ := by
  have hangle : (((i + 32 : ℕ) : ℝ) / ((64 : ℕ) : ℝ)) * (2 * Real.pi)
      = (((i : ℕ) : ℝ) / ((64 : ℕ) : ℝ)) * (2 * Real.pi) + Real.pi := by
    push_cast
    ring
  simp only [ellipsePoint]
  rw [hangle, Real.cos_add_pi, Real.sin_add_pi]
  constructor <;> ring

/-- The sample at index `numPoints` coincides with the sample at index `0`:
the angles are `2π` and `0`. -/
theorem ellipsePoint_closed (c₁ c₂ a b rot : ℝ) (n : ℕ) (hn : n ≠ 0) :
    ellipsePoint c₁ c₂ a b rot n 0 = ellipsePoint c₁ c₂ a b rot n n := by
  have h0 : (((0 : ℕ) : ℝ) / ((n : ℕ) : ℝ)) * (2 * Real.pi) = 0 := by
    simp
  have h1 : (((n : ℕ) : ℝ) / ((n : ℕ) : ℝ)) * (2 * Real.pi) = 2 * Real.pi := by
    rw [div_self (Nat.cast_ne_zero.mpr hn)]
    ring
  simp only [ellipsePoint]
  rw [h0, h1, Real.cos_two_pi, Real.sin_two_pi, Real.cos_zero, Real.sin_zero]

/-- **C5** (counterexample).  The claim places the ellipse center
`(major_axis - minor_axis) / 2` meters downwind of the literal origin.  With
radius `5000` and `wind_speed = 30` that claimed shift is `6250`, yet the code
centers the ellipse exactly at the literal origin `(-119.4179, 36.7783)`. -/
theorem C5_origin_counterexample :
    (updateFireLayersGeom (-119.4179) 36.7783 5000 30 245 100).centerLng = -119.4179
    ∧ (updateFireLayersGeom (-119.4179) 36.7783 5000 30 245 100).centerLat = 36.7783
    ∧ ((updateFireLayersGeom (-119.4179) 36.7783 5000 30 245 100).majorAxis
        - (updateFireLayersGeom (-119.4179) 36.7783 5000 30 245 100).minorAxis) / 2 ≠ 0 := by
  refine ⟨rfl, rfl, ?_⟩
  show ((5000 : ℚ) * (100 / 100) * getElongationFactor 30 - 5000 * (100 / 100)) / 2 ≠ 0
  norm_num [getElongationFactor]

/-- **C5** (amended).  No origin shift is applied: the ellipse center is the
literal origin for every request, and the sampled footprint is centrally
symmetric about that origin (samples half a revolution apart sum to twice the
center), so the ignition point is the ellipse centroid, not an upwind
vertex. -/
theorem C5_origin_amended :
    ∀ lng lat r ws wd p i, i ≤ 32 →
      (updateFireLayersGeom lng lat r ws wd p).centerLng = lng
      ∧ (updateFireLayersGeom lng lat r ws wd p).centerLat = lat
      ∧ ∃ q₁ q₂ : ℝ × ℝ,
          (updateFireLayersEllipse lng lat r ws wd p)[i]? = some q₁
          ∧ (updateFireLayersEllipse lng lat r ws wd p)[i + 32]? = some q₂
          ∧ q₁.1 + q₂.1 = 2 * (lng : ℝ) ∧ q₁.2 + q₂.2 = 2 * (lat : ℝ) := by
  intro lng lat r ws wd p i hi
  refine ⟨rfl, rfl, ?_⟩
  have hmem : ∀ j : ℕ, j ≤ 64 →
      (updateFireLayersEllipse lng lat r ws wd p)[j]?
        = some (ellipsePoint (lng : ℝ) (lat : ℝ)
            ((r * (p / 100) * getElongationFactor ws : ℚ) : ℝ)
            ((r * (p / 100) : ℚ) : ℝ) (wd : ℝ) 64 j) := by
    intro j hj
    show (createEllipseCoordinates (lng : ℝ) (lat : ℝ)
        ((r * (p / 100) * getElongationFactor ws : ℚ) : ℝ)
        ((r * (p / 100) : ℚ) : ℝ) (wd : ℝ) 64)[j]? = _
    unfold createEllipseCoordinates
    rw [List.getElem?_map, List.getElem?_range (by omega)]
    rfl
  exact ⟨_, _, hmem i (by omega), hmem (i + 32) (by omega),
    (ellipsePoint_antipode _ _ _ _ _ i).1, (ellipsePoint_antipode _ _ _ _ _ i).2⟩

/-- Witness for C5 at `i = 0`: the first sample and the sample half a
revolution later reflect through the origin. -/
theorem C5_origin_amended_witness :
    (0 : ℕ) ≤ 32 ∧
      ((updateFireLayersGeom (-119.4179) 36.7783 5000 30 245 100).centerLng = -119.4179
      ∧ (updateFireLayersGeom (-119.4179) 36.7783 5000 30 245 100).centerLat = 36.7783
      ∧ ∃ q₁ q₂ : ℝ × ℝ,
          (updateFireLayersEllipse (-119.4179) 36.7783 5000 30 245 100)[0]? = some q₁
          ∧ (updateFireLayersEllipse (-119.4179) 36.7783 5000 30 245 100)[0 + 32]? = some q₂
          ∧ q₁.1 + q₂.1 = 2 * ((-119.4179 : ℚ) : ℝ)
          ∧ q₁.2 + q₂.2 = 2 * ((36.7783 : ℚ) : ℝ)) :=
  ⟨by decide, C5_origin_amended (-119.4179) 36.7783 5000 30 245 100 0 (by decide)⟩

/-- **C6** (confirmed).  For any center, axes and rotation, and any sample
count of at least the configured 64, the generated ring has `numPoints + 1`
coordinates and is closed: its first and last coordinate pairs are equal. -/
theorem C6_ellipse_ring_closed :
    ∀ (cLng cLat a b rot : ℝ) (n : ℕ), 64 ≤ n →
      (createEllipseCoordinates cLng cLat a b rot n).length = n + 1
      ∧ (createEllipseCoordinates cLng cLat a b rot n).head?
          = (createEllipseCoordinates cLng cLat a b rot n).getLast? := by
  intro cLng cLat a b rot n hn
  have hlen : (createEllipseCoordinates cLng cLat a b rot n).length = n + 1 := by
    simp [createEllipseCoordinates]
  refine ⟨hlen, ?_⟩
  rw [List.head?_eq_getElem?, List.getLast?_eq_getElem?, hlen]
  unfold createEllipseCoordinates
  rw [List.getElem?_map, List.getElem?_map, List.getElem?_range (by omega),
    List.getElem?_range (by omega)]
  simp only [Option.map_some', Nat.add_sub_cancel]
  rw [ellipsePoint_closed cLng cLat a b rot n (by omega)]

/-- Witness for C6 with the default 64 sample steps and Scenario-B-like
axes. -/
theorem C6_ellipse_ring_closed_witness :
    64 ≤ 64 ∧
      ((createEllipseCoordinates 0 45 6500 5000 65 64).length = 64 + 1
      ∧ (createEllipseCoordinates 0 45 6500 5000 65 64).head?
          = (createEllipseCoordinates 0 45 6500 5000 65 64).getLast?) :=
  ⟨by decide, C6_ellipse_ring_closed 0 45 6500 5000 65 64 (by decide)⟩

def seasonSummer : String := "Summer"
def seasonFall : String := "Fall"
def causeArson : String := "Arson"
def causeLightning : String := "Lightning"
def catVeryLow : String := "Very Low"
def catLow : String := "Low"
def catModerate : String := "Moderate"
def catHigh : String := "High"
def catCritical : String := "Critical"

/-- The fields of `PredictionRequest` (types/prediction.ts) that
`generateMockPrediction` (api.ts lines 61-108) actually reads.  `wind_speed`
is optional in the interface; JavaScript tests it for truthiness, so both an
absent and a zero wind speed contribute nothing. -/
structure PredictionRequest where
  maxTemp : ℚ
  minTemp : ℚ
  windSpeed : Option ℚ
  season : String
  cause : String
  deriving DecidableEq

/-- The risk-score computation of `generateMockPrediction`
(api.ts lines 63-84): base 50, temperature-range and heat factors, wind
factor behind a truthiness test, season and cause bonuses, clamped to
`[0, 100]`. -/
def mockRiskScore (data : PredictionRequest) : ℚ :=
  let tempRange := data.maxTemp - data.minTemp
  let score := 50 + min (tempRange * 0.5) 15 + max 0 ((data.maxTemp - 30) * 2)
  let score := score + (match data.windSpeed with
    | some w => if w = 0 then 0 else min (w * 0.8) 20
    | none => 0)
  let score := score + (if data.season = seasonSummer then 10 else 0)
    + (if data.season = seasonFall then 5 else 0)
  let score := score + (if data.cause = causeArson then 15 else 0)
    + (if data.cause = causeLightning then 10 else 0)
  max 0 (min 100 score)

/-- The acreage branch of `generateMockPrediction` (api.ts lines 87-92).
Each branch draws one `Math.random()` sample; the sample is made explicit as
the argument `rand` (an arbitrary value in `[0, 1)`). -/
def mockPredictedAcres (data : PredictionRequest) (rand : ℚ) : ℚ :=
  let riskScore := mockRiskScore data
  if riskScore < 20 then rand * 10
  else if riskScore < 40 then 10 + rand * 90
  else if riskScore < 60 then 100 + rand * 900
  else if riskScore < 80 then 1000 + rand * 9000
  else 10000 + rand * 40000

/-- The risk-category thresholds of `getRiskDetails` (api.ts lines 110-208). -/
def riskCategoryOf (score : ℚ) : String :=
  if score < 20 then catVeryLow
  else if score < 40 then catLow
  else if score < 60 then catModerate
  else if score < 80 then catHigh
  else catCritical

/-- The fields of the mock `PredictionResponse` relevant to determinism:
acres and hectares are rounded to one decimal, the risk score to an
integer. -/
structure MockPrediction where
  predictedAcres : ℚ
  predictedHectares : ℚ
  riskScore : ℤ
  riskCategory : String
  deriving DecidableEq

/-- `generateMockPrediction` from api.ts lines 61-108, with the
`Math.random()` draw made explicit as `rand`.  `predictFireSize` falls back
to this function whenever the backend is unreachable. -/
def generateMockPrediction (data : PredictionRequest) (rand : ℚ) : MockPrediction :=
  let riskScore := mockRiskScore data
  let predictedAcres := mockPredictedAcres data rand
  { predictedAcres := ((jsRound (predictedAcres * 10) : ℚ)) / 10
    predictedHectares := ((jsRound (predictedAcres * 0.404686 * 10) : ℚ)) / 10
    riskScore := jsRound riskScore
    riskCategory := riskCategoryOf riskScore }

/-- A concrete demo request: hot summer arson fire, no wind reading. -/
def mockDemoRequest : PredictionRequest :=
  { maxTemp := 40
    minTemp := 20
    windSpeed := none
    season := seasonSummer
    cause := causeArson }

/-- **C9** (counterexample).  The mock-prediction path draws a fresh
`Math.random()` sample per call, so two calls with the identical request can
return different `predicted_acres`: with the demo request (risk score 100)
the draws `0` and `1/2` — both admissible `Math.random()` values — yield
`10000` and `30000` acres. -/
theorem C9_determinism_counterexample :
    (generateMockPrediction mockDemoRequest 0).predictedAcres
      ≠ (generateMockPrediction mockDemoRequest (1 / 2)).predictedAcres := by
  have hsf : seasonSummer ≠ seasonFall := by decide
  have hal : causeArson ≠ causeLightning := by decide
  have hscore : mockRiskScore mockDemoRequest = 100 := by
    norm_num [mockRiskScore, mockDemoRequest, if_neg hsf, if_neg hal]
  have hacres : ∀ rand : ℚ, mockPredictedAcres mockDemoRequest rand
      = 10000 + rand * 40000 := by
    intro rand
    unfold mockPredictedAcres
    rw [hscore]
    norm_num
  show ((jsRound (mockPredictedAcres mockDemoRequest 0 * 10) : ℚ)) / 10
      ≠ ((jsRound (mockPredictedAcres mockDemoRequest (1 / 2) * 10) : ℚ)) / 10
  rw [hacres, hacres]
  norm_num [jsRound]

/-- **C9** (amended).  Identical requests always give identical `risk_score`
and `risk_category` — the random draw only enters the size fields — so the
operation is deterministic once the `Math.random()` sample is fixed, but the
full response is not bit-identical across calls. -/
theorem C9_determinism_amended :
    ∀ (data : PredictionRequest) (rand₁ rand₂ : ℚ),
      (generateMockPrediction data rand₁).riskScore
        = (generateMockPrediction data rand₂).riskScore
      ∧ (generateMockPrediction data rand₁).riskCategory
        = (generateMockPrediction data rand₂).riskCategory := by
  intro data rand₁ rand₂
  exact ⟨rfl, rfl⟩

/-- `HistoricalPrediction` (types/prediction.ts) reduced to the fields the
storage layer inspects: the `id` used by `deletePrediction` plus a payload
field standing for the rest of the record. -/
structure HistoricalPrediction where
  id : String
  timestamp : String
  deriving DecidableEq

/-- The state of the `localStorage` slot under the storage key: absent,
present but unparsable, or a parsed list of predictions. -/
inductive StoredHistory
  | missing
  | corrupt
  | value (l : List HistoricalPrediction)
  deriving DecidableEq

/-- `getHistory` from storage.ts lines 13-20: returns the parsed list, or the
empty list when the slot is absent or `JSON.parse` throws. -/
def getHistory : StoredHistory → List HistoricalPrediction
  | .missing => []
  | .corrupt => []
  | .value l => l

/-- `savePrediction` from storage.ts lines 5-11: prepend (`unshift`) the new
prediction, keep only the first 50 (`slice(0, 50)`), and store the result. -/
def savePrediction (p : HistoricalPrediction) (s : StoredHistory) : StoredHistory :=
  .value ((p :: getHistory s).take 50)

/-- `deletePrediction` from storage.ts lines 22-25: store the history with
every entry of the given id removed. -/
def deletePrediction (i : String) (s : StoredHistory) : StoredHistory :=
  .value ((getHistory s).filter fun p => p.id != i)

/-- `clearHistory` from storage.ts lines 27-29: remove the stored item. -/
def clearHistory (_ : StoredHistory) : StoredHistory := .missing

def samplePredictionId : String := "pred_1"
def sampleTimestamp : String := "2024-01-01T00:00:00Z"

/-- **C10** (confirmed).  After any `savePrediction` the history has at most
50 entries and starts with the prediction just saved; `deletePrediction`
preserves the 50-entry bound and `clearHistory` empties the store;
`getHistory` returns the empty list on missing or unparsable data. -/
theorem C10_history_invariants :
    ∀ (p : HistoricalPrediction) (s : StoredHistory) (i : String),
      (getHistory (savePrediction p s)).length ≤ 50
      ∧ (getHistory (savePrediction p s)).head? = some p
      ∧ ((getHistory s).length ≤ 50 →
          (getHistory (deletePrediction i s)).length ≤ 50)
      ∧ getHistory (clearHistory s) = []
      ∧ getHistory StoredHistory.missing = []
      ∧ getHistory StoredHistory.corrupt = [] := by
  intro p s i
  refine ⟨?_, ?_, ?_, rfl, rfl, rfl⟩
  · show ((p :: getHistory s).take 50).length ≤ 50
    rw [List.length_take]
    exact min_le_left _ _
  · rfl
  · intro h
    exact (List.length_filter_le _ _).trans h

/-- Witness for C10 on the empty store. -/
theorem C10_history_invariants_witness :
    (getHistory StoredHistory.missing).length ≤ 50
    ∧ (getHistory (deletePrediction samplePredictionId StoredHistory.missing)).length ≤ 50 :=
  ⟨by decide,
    (C10_history_invariants
      { id := samplePredictionId, timestamp := sampleTimestamp }
      StoredHistory.missing samplePredictionId).2.2.1
      (by decide)⟩

/-- Modelled from the spec: one row of the Area Dataset (spec section 3,
County).  The backend impact aggregator (`county_map_with_wind`) is not among
the available sources, so the dataset row carries only the fields the
aggregation contract uses: the county identifier (the 5-digit zero-padded
code, which orders identically as a number) and the population count. -/
structure County where
  id : ℕ
  population : ℚ
  deriving DecidableEq

/-- Modelled from the spec: one row of the result (spec section 3,
CountyContribution), reduced to the fields the ordering and aggregation
contract constrains: the county id and the rounded contributing
population. -/
structure CountyContribution where
  countyId : ℕ
  contributingPopulation : ℤ
  deriving DecidableEq

/-- The result ordering of spec section 3 / section 4.3 step 4: descending by
`contributing_population`, ties broken by `county_id` ascending. -/
def contribLE (a b : CountyContribution) : Prop :=
  b.contributingPopulation < a.contributingPopulation
  ∨ (a.contributingPopulation = b.contributingPopulation ∧ a.countyId ≤ b.countyId)

instance : DecidableRel contribLE := fun a b => by
  unfold contribLE
  infer_instance

instance : IsTotal CountyContribution contribLE where
  total a b := by
    rcases lt_trichotomy a.contributingPopulation b.contributingPopulation with h | h | h
    · exact Or.inr (Or.inl h)
    · rcases le_total a.countyId b.countyId with h2 | h2
      · exact Or.inl (Or.inr ⟨h, h2⟩)
      · exact Or.inr (Or.inr ⟨h.symm, h2⟩)
    · exact Or.inl (Or.inl h)

instance : IsTrans CountyContribution contribLE where
  trans a b c hab hbc := by
    rcases hab with h1 | ⟨h1, h1'⟩ <;> rcases hbc with h2 | ⟨h2, h2'⟩
    · exact Or.inl (h2.trans h1)
    · exact Or.inl (h2 ▸ h1)
    · exact Or.inl (h1 ▸ h2)
    · exact Or.inr ⟨h1.trans h2, h1'.trans h2'⟩

/-- Modelled from the spec: the service output (spec section 3,
ImpactResult): the continuous total and the ranked contribution list. -/
structure ImpactResult where
  totalPopulation : ℤ
  contributions : List CountyContribution
  deriving DecidableEq

/-- Modelled from the spec: steps 2-4 of the Impact Aggregator (spec
section 4.3).  The geometric steps are abstracted into the input `rows`: each
candidate county paired with its already-clamped intersection fraction.
Counties whose fraction is zero are omitted; `contributing_population` is
`round(population * fraction)` under the fixed round-half-up rule; the total
is the sum over the included counties; the list is sorted descending by
contribution with ties broken by id ascending. -/
def aggregateImpact (rows : List (County × ℚ)) : ImpactResult :=
  let included := rows.filter fun r => r.2 != 0
  let contribs := included.map fun r =>
    { countyId := r.1.id
      contributingPopulation := jsRound (r.1.population * r.2) : CountyContribution }
  { totalPopulation := (contribs.map fun c => c.contributingPopulation).sum
    contributions := List.insertionSort contribLE contribs }

/-- Modelled from the spec: the request validation of the Impact Service
(spec sections 4.2 and 4.4): reject non-positive radius or negative wind
speed with `InvalidRequestError`, otherwise run the aggregation. -/
inductive ImpactError
  | invalidRequest
  deriving DecidableEq

/-- Modelled from the spec: the spread request (spec section 3,
FireSpreadRequest). -/
structure FireSpreadRequest where
  originLatitude : ℚ
  originLongitude : ℚ
  baseRadiusKm : ℚ
  windSpeed : ℚ
  windDirection : ℚ
  deriving DecidableEq

/-- Modelled from the spec: `compute_impact` (spec section 6), with the
candidate rows produced by the geometric steps passed in explicitly. -/
def computeImpact (req : FireSpreadRequest) (rows : List (County × ℚ)) :
    Except ImpactError ImpactResult :=
  if req.baseRadiusKm ≤ 0 ∨ req.windSpeed < 0 then .error .invalidRequest
  else .ok (aggregateImpact rows)

/-- **C7** (confirmed, against the spec model).  For every input, the
contribution list is pairwise ordered: descending by contributing population,
with equal contributions ordered by ascending county id; and the total equals
the sum of the contributing populations over the returned contributions. -/
theorem C7_contributions_sorted_total :
    ∀ rows : List (County × ℚ),
      List.Sorted contribLE (aggregateImpact rows).contributions
      ∧ (aggregateImpact rows).totalPopulation
        = ((aggregateImpact rows).contributions.map
            fun c => c.contributingPopulation).sum := by
  intro rows
  constructor
  · exact List.sorted_insertionSort contribLE _
  · show (((rows.filter fun r => r.2 != 0).map fun r =>
        ({ countyId := r.1.id
           contributingPopulation := jsRound (r.1.population * r.2) }
          : CountyContribution)).map fun c => c.contributingPopulation).sum = _
    exact (((List.perm_insertionSort contribLE _).map
      fun c => c.contributingPopulation).sum_eq).symm

/-- **C8** (confirmed, against the spec model).  A valid request whose
footprint intersects no county (empty candidate set) yields an ordinary
`ok` result with zero total population and an empty contribution list — not
an error. -/
theorem C8_empty_candidates_ok :
    ∀ req : FireSpreadRequest, 0 < req.baseRadiusKm → 0 ≤ req.windSpeed →
      computeImpact req [] = .ok { totalPopulation := 0, contributions := [] } := by
  intro req h1 h2
  unfold computeImpact
  rw [if_neg]
  · rfl
  · push_neg
    exact ⟨h1, h2⟩

/-- Witness for C8: Scenario-D-style valid request over an uncovered area. -/
theorem C8_empty_candidates_ok_witness :
    (0 : ℚ) < 5 ∧ (0 : ℚ) ≤ 30 ∧
      computeImpact
        { originLatitude := 30
          originLongitude := -150
          baseRadiusKm := 5
          windSpeed := 30
          windDirection := 245 } []
        = .ok { totalPopulation := 0, contributions := [] } :=
  ⟨by norm_num, by norm_num,
    C8_empty_candidates_ok
      { originLatitude := 30
        originLongitude := -150
        baseRadiusKm := 5
        windSpeed := 30
        windDirection := 245 }
      (by norm_num) (by norm_num)⟩

end Wildfire
